import Mathlib

set_option maxHeartbeats 1000000

/-!
Verification development for the contact-form submission handler of the
i95dev NetSuite integration app (`app/routes/app._index.jsx`).

The handler is embedded shallowly:

* JavaScript strings are `String`; `formData.get` results (string-or-null)
  are `Option String`; JS truthiness of such a value is `truthy`.
* `String.prototype.trim` is `jsTrim` (drop leading and trailing whitespace),
  `toLowerCase` is `jsToLower`, both defined over the character list so that
  their algebra is provable.
* The external world (CRM credential, CRM call outcome, database query /
  insert outcomes, email-send outcome) is an oracle `Env` of booleans: a
  `false` flag means the corresponding external call throws.
* The handler `action` is a pure function of the oracle, the current list of
  persisted `ContactForm` rows, and the form input. It returns the response
  value, the new row list, and the trace of attempted external calls.
-/

/-- Character-list trim: drop leading whitespace, then trailing whitespace.
Embeds `String.prototype.trim`. -/
def trimChars (cs : List Char) : List Char :=
  List.rdropWhile Char.isWhitespace (cs.dropWhile Char.isWhitespace)

/-- Embedding of `s.trim()`. -/
def jsTrim (s : String) : String :=
  ⟨trimChars s.data⟩

/-- Embedding of `s.toLowerCase()` (ASCII case folding). -/
def jsToLower (s : String) : String :=
  ⟨s.data.map Char.toLower⟩

/-- JS truthiness of a `formData.get` result: `null` and `""` are falsy. -/
def truthy : Option String → Bool
  | none => false
  | some s => !s.data.isEmpty

/-- Characters allowed by the local part of the email regex
`[a-zA-Z0-9._%+-]`. -/
def isLocalChar (c : Char) : Bool :=
  c.isAlphanum || c == '.' || c == '_' || c == '%' || c == '+' || c == '-'

/-- Characters allowed by the domain part of the email regex `[a-zA-Z0-9.-]`. -/
def isDomainChar (c : Char) : Bool :=
  c.isAlphanum || c == '.' || c == '-'

/-- Characters allowed by the name regex `[a-zA-Z\s'-]` (letters, whitespace,
apostrophe, hyphen). -/
def isNameChar (c : Char) : Bool :=
  c.isAlpha || c.isWhitespace || c == Char.ofNat 39 || c == '-'

/-- Match of the domain side of the email regex, `[a-zA-Z0-9.-]+\.[a-zA-Z]{2,}$`.
Because the final `[a-zA-Z]{2,}` must reach the end of the string and cannot
contain a dot, the only candidate decomposition splits at the last dot: the
maximal alphabetic suffix is the TLD, it must have length at least 2, be
preceded by a dot, and the (non-empty) remainder must use only domain
characters. -/
def emailDomainOk (domain : List Char) : Bool :=
  let rev := domain.reverse
  let tld := rev.takeWhile Char.isAlpha
  decide (2 ≤ tld.length) &&
    match rev.dropWhile Char.isAlpha with
    | c :: pre => c == '.' && !pre.isEmpty && pre.all isDomainChar
    | [] => false

/-- Embedding of `validateEmail`: test of
`/^[a-zA-Z0-9._%+-]+@[a-zA-Z0-9.-]+\.[a-zA-Z]{2,}$/`. Neither character class
contains `@`, so a match requires exactly one `@`; the string matches iff the
part before it is a non-empty run of local characters and the part after it
matches the domain pattern. -/
def validateEmail (email : String) : Bool :=
  match email.data.splitOn '@' with
  | [localPart, domainPart] =>
    (!localPart.isEmpty && localPart.all isLocalChar) && emailDomainOk domainPart
  | _ => false

/-- Embedding of `validateName`:
`/^[a-zA-Z\s'-]+$/.test(name || "") && name.trim().length >= 2`. -/
def validateName (name : String) : Bool :=
  (!name.data.isEmpty && name.data.all isNameChar) &&
    decide (2 ≤ (jsTrim name).length)

/-- Embedding of `validatePhone` (the `countryCode` parameter of the source is
unused there and omitted): empty/whitespace-only input passes; otherwise the
digits remaining after `replace(/[^\d]/g, "")` must number between 7 and 12. -/
def validatePhone (phoneNumber : String) : Bool :=
  if jsTrim phoneNumber = "" then true
  else
    decide (7 ≤ (phoneNumber.data.filter Char.isDigit).length) &&
      decide ((phoneNumber.data.filter Char.isDigit).length ≤ 12)

/-- Raw form fields as read by `formData.get` in `action`. -/
structure FormInput where
  firstName : Option String
  lastName : Option String
  email : Option String
  countryCode : Option String
  phoneNumber : Option String
  questions : Option String
deriving Repr, DecidableEq

/-- Server-side validation chain for `firstName` (lines 82-85). -/
def firstNameError : Option String → Option String
  | none => some "First name is required"
  | some fn =>
    if jsTrim fn = "" then some "First name is required"
    else if (jsTrim fn).length < 2 then some "At least 2 characters"
    else if 50 < (jsTrim fn).length then some "Max 50 characters"
    else if !validateName (jsTrim fn) then some "Only letters, spaces, - and \x27"
    else none

/-- Server-side validation chain for `lastName` (lines 87-90). -/
def lastNameError : Option String → Option String
  | none => some "Last name is required"
  | some ln =>
    if jsTrim ln = "" then some "Last name is required"
    else if (jsTrim ln).length < 2 then some "At least 2 characters"
    else if 50 < (jsTrim ln).length then some "Max 50 characters"
    else if !validateName (jsTrim ln) then some "Only letters, spaces, - and \x27"
    else none

/-- Server-side validation chain for `email` (lines 92-94). -/
def emailError : Option String → Option String
  | none => some "Email is required"
  | some e =>
    if jsTrim e = "" then some "Email is required"
    else if 254 < (jsTrim e).length then some "Email too long"
    else if !validateEmail (jsTrim e) then some "Invalid email"
    else none

/-- Server-side validation for `phoneNumber` (lines 96-98): only flagged when
the trimmed value is truthy (non-empty) and `validatePhone` rejects it. -/
def phoneError : Option String → Option String
  | none => none
  | some pn =>
    if !(jsTrim pn).data.isEmpty && !validatePhone (jsTrim pn) then
      some "Invalid phone number format"
    else none

/-- Server-side validation chain for `questions` (lines 100-102). -/
def questionsError : Option String → Option String
  | none => some "Questions field is required"
  | some q =>
    if jsTrim q = "" then some "Questions field is required"
    else if (jsTrim q).length < 10 then some "Minimum 10 characters"
    else if 1000 < (jsTrim q).length then some "Max 1000 characters"
    else none

/-- The `errors` object built by the server-side validation block: one
optional message per field, each computed independently of the others. -/
structure Errors where
  firstName : Option String
  lastName : Option String
  email : Option String
  phoneNumber : Option String
  questions : Option String
deriving Repr, DecidableEq

/-- Validation of the whole form (lines 81-102). Every field block of the
source runs unconditionally, so the object aggregates all failures. -/
def validateForm (i : FormInput) : Errors :=
  { firstName := firstNameError i.firstName
    lastName := lastNameError i.lastName
    email := emailError i.email
    phoneNumber := phoneError i.phoneNumber
    questions := questionsError i.questions }

/-- Emptiness of the `errors` object (`Object.keys(errors).length > 0` is its
negation): a key is present exactly when the field's message was assigned. -/
def Errors.isEmpty (e : Errors) : Bool :=
  e.firstName.isNone && e.lastName.isNone && e.email.isNone &&
    e.phoneNumber.isNone && e.questions.isNone

/-- Line 77: `countryCode && phoneNumber ? countryCode + " " + phoneNumber.trim() : null`. -/
def combinedPhone (countryCode phoneNumber : Option String) : Option String :=
  if truthy countryCode && truthy phoneNumber then
    some (countryCode.getD "" ++ " " ++ jsTrim (phoneNumber.getD ""))
  else none

/-- Line 129: `phone?.trim() || null` — the phone value stored in the row. -/
def storedPhone : Option String → Option String
  | none => none
  | some p => if jsTrim p = "" then none else some (jsTrim p)

/-- Normalized email used for the duplicate check, the stored row and the CRM
property: `email.trim().toLowerCase()`. -/
def normEmail (e : String) : String :=
  jsToLower (jsTrim e)

/-- A persisted `ContactForm` row (without the generated id / timestamps). -/
structure ContactRow where
  firstName : String
  lastName : String
  email : String
  phone : Option String
  questions : String
deriving Repr, DecidableEq

/-- The row written by `prisma.contactForm.create` (lines 124-132). -/
def newRow (firstName lastName email : String) (phone : Option String)
    (questions : String) : ContactRow :=
  { firstName := jsTrim firstName
    lastName := jsTrim lastName
    email := normEmail email
    phone := storedPhone phone
    questions := jsTrim questions }

/-- `prisma.contactForm.findFirst({ where: { email } })`: the first stored row
whose email equals the normalized email. -/
def findFirstByEmail (db : List ContactRow) (e : String) : Option ContactRow :=
  db.find? (fun r => r.email == e)

/-- The HubSpot contact properties (lines 162-169). The `phone` key is spread
in only when the combined phone value is truthy. -/
structure CrmProps where
  firstname : String
  lastname : String
  email : String
  phone : Option String
  hs_content_membership_notes : String
deriving Repr, DecidableEq

/-- Construction of the CRM properties from the validated fields. -/
def crmProperties (firstName lastName email : String) (phone : Option String)
    (questions : String) : CrmProps :=
  { firstname := jsTrim firstName
    lastname := jsTrim lastName
    email := normEmail email
    phone := match phone with
      | none => none
      | some p => if p.data.isEmpty then none else some (jsTrim p)
    hs_content_membership_notes := jsTrim questions }

/-- The notification email message sent through Resend (lines 136-149). -/
structure EmailMsg where
  sender : String
  recipient : String
  subject : String
  html : String
deriving Repr, DecidableEq

/-- The HTML body template of the notification email (lines 140-148). The
phone paragraph is interpolated only when the combined phone value is truthy;
the raw (untrimmed) form values are interpolated. -/
def emailHtml (firstName lastName email : String) (phone : Option String)
    (questions : String) : String :=
  "\n        <h2>New Contact Form Submission</h2>\n        <p><strong>First Name:</strong> "
    ++ firstName ++ "</p>\n        <p><strong>Last Name:</strong> " ++ lastName
    ++ "</p>\n        <p><strong>Email:</strong> " ++ email ++ "</p>\n        "
    ++ (match phone with
        | none => ""
        | some p =>
          if p.data.isEmpty then ""
          else "<p><strong>Phone:</strong> " ++ p ++ "</p>")
    ++ "\n        <p><strong>Questions:</strong></p>\n        <p>" ++ questions
    ++ "</p>\n      "

/-- The notification email value (fixed sender, fixed recipient). -/
def notificationEmail (firstName lastName email : String) (phone : Option String)
    (questions : String) : EmailMsg :=
  { sender := "onboarding@resend.dev"
    recipient := "abhinav.kavuluru@i95dev.com"
    subject := "New Contact Form Submission"
    html := emailHtml firstName lastName email phone questions }

/-- External calls attempted by the handler, in order. An effect is recorded
when the call is attempted, whether or not it then throws. -/
inductive Effect
  | crmCall (props : CrmProps)
  | dbFindFirst (email : String)
  | dbCreate (row : ContactRow)
  | emailSend (msg : EmailMsg)
deriving Repr, DecidableEq

/-- Whether an effect is the CRM create-contact call. -/
def Effect.isCrm : Effect → Bool
  | .crmCall _ => true
  | _ => false

/-- Whether an effect is the duplicate-check database read. -/
def Effect.isDbRead : Effect → Bool
  | .dbFindFirst _ => true
  | _ => false

/-- Whether an effect is the database insert. -/
def Effect.isDbWrite : Effect → Bool
  | .dbCreate _ => true
  | _ => false

/-- Whether an effect is the notification email send. -/
def Effect.isEmail : Effect → Bool
  | .emailSend _ => true
  | _ => false

/-- Exceptions that the fallback path can raise (an external call throwing). -/
inductive Exn
  | findFailed
  | insertFailed
  | emailFailed
deriving Repr, DecidableEq

/-- Oracle for the external world: the configured CRM credential and the
outcome of each external call (`false` = the call throws). -/
structure Env where
  hubspotApiKey : Option String
  crmOk : Bool
  findOk : Bool
  insertOk : Bool
  emailOk : Bool
deriving Repr, DecidableEq

/-- The JSON-like response value of the handler. A response carries the
`errors` mapping only when it is the validation-failure response. -/
structure ActionResult where
  success : Bool
  message : String
  errors : Option Errors
deriving Repr, DecidableEq

/-- Success message shared by the CRM path and the fallback path. -/
def successMessage : String :=
  "Form submitted successfully! Our team will contact you soon."

/-- Duplicate-rejection response of the fallback path (lines 116-121). -/
def duplicateResult : ActionResult :=
  { success := false
    message := "A submission with this email already exists. Please use a different email or contact support."
    errors := none }

/-- Generic response of the outer catch block (lines 187-190). -/
def genericFailureResult : ActionResult :=
  { success := false
    message := "Failed to submit form. Please try again later."
    errors := none }

/-- Embedding of `fallbackToDatabase` (lines 109-152): duplicate check, then
insert, then notification email, each of which may throw per the oracle.
Returns the result (or the raised exception), the new row list, and the trace
of attempted calls. -/
def fallbackToDatabase (env : Env) (db : List ContactRow)
    (firstName lastName email : String) (phone : Option String)
    (questions : String) :
    Except Exn ActionResult × List ContactRow × List Effect :=
  if env.findOk = false then
    (Except.error Exn.findFailed, db, [Effect.dbFindFirst (normEmail email)])
  else
    match findFirstByEmail db (normEmail email) with
    | some _ =>
      (Except.ok duplicateResult, db, [Effect.dbFindFirst (normEmail email)])
    | none =>
      let row := newRow firstName lastName email phone questions
      if env.insertOk = false then
        (Except.error Exn.insertFailed, db,
          [Effect.dbFindFirst (normEmail email), Effect.dbCreate row])
      else
        let msg := notificationEmail firstName lastName email phone questions
        if env.emailOk = false then
          (Except.error Exn.emailFailed, db ++ [row],
            [Effect.dbFindFirst (normEmail email), Effect.dbCreate row,
              Effect.emailSend msg])
        else
          (Except.ok { success := true, message := successMessage, errors := none },
            db ++ [row],
            [Effect.dbFindFirst (normEmail email), Effect.dbCreate row,
              Effect.emailSend msg])

/-- The outer `try`/`catch` (lines 154-190): any exception escaping the
fallback is collapsed into the generic failure response; row-list changes made
before the exception persist. -/
def runCatch : Except Exn ActionResult → ActionResult
  | Except.ok r => r
  | Except.error _ => genericFailureResult

/-- Embedding of the `action` handler (lines 68-191): validate; on any
validation error return the structured error response with no external calls;
otherwise, if the CRM credential is truthy attempt the CRM create and return
success on success, falling back to the database path on CRM failure; with no
credential go straight to the fallback path. -/
def action (env : Env) (db : List ContactRow) (input : FormInput) :
    ActionResult × List ContactRow × List Effect :=
  let errors := validateForm input
  if errors.isEmpty = false then
    ({ success := false, message := "Please fix the validation errors",
       errors := some errors }, db, [])
  else
    let firstName := input.firstName.getD ""
    let lastName := input.lastName.getD ""
    let email := input.email.getD ""
    let phone := combinedPhone input.countryCode input.phoneNumber
    let questions := input.questions.getD ""
    if truthy env.hubspotApiKey then
      let props := crmProperties firstName lastName email phone questions
      if env.crmOk then
        ({ success := true, message := successMessage, errors := none }, db,
          [Effect.crmCall props])
      else
        let out := fallbackToDatabase env db firstName lastName email phone questions
        (runCatch out.1, out.2.1, Effect.crmCall props :: out.2.2)
    else
      let out := fallbackToDatabase env db firstName lastName email phone questions
      (runCatch out.1, out.2.1, out.2.2)

/-- Validity of a name field as §4.1 of the spec words it: present, 2–50
characters after trimming, characters restricted to
letters/spaces/hyphen/apostrophe. Used to compare the implementation's error
chain against the spec. -/
def spec41NameValid : Option String → Bool
  | none => false
  | some v =>
    decide (2 ≤ (jsTrim v).length) && decide ((jsTrim v).length ≤ 50) &&
      (jsTrim v).data.all isNameChar

/-- Validity of the email field as §4.1 words it: present, non-empty, at most
254 characters, matching the `local@domain.tld` shape (the regex embedded by
`validateEmail`). -/
def spec41EmailValid : Option String → Bool
  | none => false
  | some v =>
    !(jsTrim v).data.isEmpty && decide ((jsTrim v).length ≤ 254) &&
      validateEmail (jsTrim v)

/-- Validity of the phone field as §4.1 words it — optional; if present the
digit count after stripping non-digits must be 7–12 — with the correction
established by claim C8: a whitespace-only (in particular empty) value also
passes. -/
def spec41PhoneValid : Option String → Bool
  | none => true
  | some v =>
    (jsTrim v).data.isEmpty ||
      (decide (7 ≤ (v.data.filter Char.isDigit).length) &&
        decide ((v.data.filter Char.isDigit).length ≤ 12))

/-- Validity of the questions field as §4.1 words it: present, 10–1000
characters after trimming. -/
def spec41QuestionsValid : Option String → Bool
  | none => false
  | some v =>
    decide (10 ≤ (jsTrim v).length) && decide ((jsTrim v).length ≤ 1000)

/-- Sample valid submission used by witnesses. -/
def sampleInput : FormInput :=
  { firstName := some "Jo"
    lastName := some "Lee"
    email := some "jo@acme.com"
    countryCode := some "+1"
    phoneNumber := some "5551234"
    questions := some "We need integration help with billing sync" }

/-- Sample submission with an invalid email, used by witnesses. -/
def badEmailInput : FormInput :=
  { firstName := some "Jo"
    lastName := some "Lee"
    email := some "not-an-email"
    countryCode := none
    phoneNumber := none
    questions := some "We need integration help with billing sync" }

/-- Sample submission whose country code and phone number are both a single
space, used by the C9 counterexample. -/
def wsPhoneInput : FormInput :=
  { firstName := some "Jo"
    lastName := some "Lee"
    email := some "jo@acme.com"
    countryCode := some " "
    phoneNumber := some " "
    questions := some "We need integration help with billing sync" }

/-- Resubmission of `sampleInput` whose email differs only by case and
surrounding whitespace. -/
def dupEmailInput : FormInput :=
  { firstName := some "Jo"
    lastName := some "Lee"
    email := some "  JO@ACME.COM "
    countryCode := some "+1"
    phoneNumber := some "5551234"
    questions := some "We need integration help with billing sync" }

/-- Oracle with no CRM credential and all external calls succeeding. -/
def envNoKey : Env :=
  { hubspotApiKey := none, crmOk := true, findOk := true, insertOk := true, emailOk := true }

/-- Oracle with a CRM credential whose create call fails; everything else
succeeds. -/
def envKeyCrmFails : Env :=
  { hubspotApiKey := some "key", crmOk := false, findOk := true, insertOk := true, emailOk := true }

/-- Oracle with a CRM credential whose create call succeeds. -/
def envKeyCrmOk : Env :=
  { hubspotApiKey := some "key", crmOk := true, findOk := true, insertOk := true, emailOk := true }

/-- Oracle with no CRM credential where the email send throws. -/
def envNoKeyEmailFails : Env :=
  { hubspotApiKey := none, crmOk := true, findOk := true, insertOk := true, emailOk := false }

/-- Oracle with no CRM credential where the duplicate-check query throws. -/
def envNoKeyFindFails : Env :=
  { hubspotApiKey := none, crmOk := true, findOk := false, insertOk := true, emailOk := true }

/-! Algebra of `trimChars` / `jsTrim`. -/

/-- The head of `dropWhile p l` does not satisfy `p`. -/
theorem dropWhile_head_not {α : Type} (p : α → Bool) (l : List α) (x : α)
    (h : (l.dropWhile p).head? = some x) : p x = false := by
  induction l with
  | nil => simp [List.dropWhile] at h
  | cons a as ih =>
    rw [List.dropWhile_cons] at h
    by_cases hp : p a
    · rw [if_pos hp] at h
      exact ih h
    · rw [if_neg hp] at h
      simp only [List.head?_cons, Option.some.injEq] at h
      subst h
      simpa using hp

/-- A list whose head fails `p` is unchanged by `dropWhile p`. -/
theorem dropWhile_eq_self_of_head {α : Type} (p : α → Bool) (l : List α)
    (h : ∀ x, l.head? = some x → p x = false) : l.dropWhile p = l := by
  cases l with
  | nil => rfl
  | cons a as =>
    have ha := h a rfl
    rw [List.dropWhile_cons, if_neg (by simp [ha])]

/-- Trimming is idempotent. -/
theorem trimChars_idem (cs : List Char) : trimChars (trimChars cs) = trimChars cs := by
  unfold trimChars
  have hX : List.dropWhile Char.isWhitespace
      (List.rdropWhile Char.isWhitespace (List.dropWhile Char.isWhitespace cs)) =
      List.rdropWhile Char.isWhitespace (List.dropWhile Char.isWhitespace cs) := by
    apply dropWhile_eq_self_of_head
    intro x hx
    obtain ⟨t, ht⟩ :=
      List.rdropWhile_prefix Char.isWhitespace (List.dropWhile Char.isWhitespace cs)
    apply dropWhile_head_not Char.isWhitespace cs
    rw [← ht, List.head?_append, hx]
    rfl
  rw [hX, List.rdropWhile_idempotent]

/-- The trim of a list is empty exactly when the list is all whitespace. -/
theorem trimChars_eq_nil_iff (cs : List Char) :
    trimChars cs = [] ↔ ∀ c ∈ cs, c.isWhitespace := by
  unfold trimChars
  rw [List.rdropWhile_eq_nil_iff]
  have hsplit := List.takeWhile_append_dropWhile Char.isWhitespace cs
  constructor
  · intro h c hc
    rw [← hsplit] at hc
    rcases List.mem_append.mp hc with h1 | h2
    · exact List.mem_takeWhile_imp h1
    · exact h c h2
  · intro h c hc
    refine h c ?_
    rw [← hsplit]
    exact List.mem_append.mpr (Or.inr hc)

/-- Dropping a `p`-prefix does not change a filter that is disjoint from `p`. -/
theorem filter_dropWhile_of_disjoint {α : Type} (p q : α → Bool)
    (hpq : ∀ x, p x = true → q x = false) (l : List α) :
    (l.dropWhile p).filter q = l.filter q := by
  conv_rhs => rw [← List.takeWhile_append_dropWhile p l]
  rw [List.filter_append]
  have hnil : (l.takeWhile p).filter q = [] := by
    rw [List.filter_eq_nil_iff]
    intro a ha
    simp [hpq a (List.mem_takeWhile_imp ha)]
  rw [hnil, List.nil_append]

/-- Trimming does not change a filter that excludes whitespace. -/
theorem filter_trimChars (q : Char → Bool)
    (hq : ∀ c, Char.isWhitespace c = true → q c = false) (cs : List Char) :
    (trimChars cs).filter q = cs.filter q := by
  unfold trimChars List.rdropWhile
  rw [List.filter_reverse, filter_dropWhile_of_disjoint Char.isWhitespace q hq,
    List.filter_reverse, List.reverse_reverse,
    filter_dropWhile_of_disjoint Char.isWhitespace q hq]

/-- All characters of a trim are whitespace exactly when all characters of the
original list are. -/
theorem trimChars_all_ws_iff (l : List Char) :
    (∀ c ∈ trimChars l, c.isWhitespace) ↔ (∀ c ∈ l, c.isWhitespace) := by
  rw [← trimChars_eq_nil_iff, trimChars_idem, trimChars_eq_nil_iff]

/-- String-level trim idempotence. -/
theorem jsTrim_idem (s : String) : jsTrim (jsTrim s) = jsTrim s :=
  String.ext (trimChars_idem s.data)

/-- A string trims to `""` exactly when it is all whitespace. -/
theorem jsTrim_eq_empty_iff (s : String) :
    jsTrim s = "" ↔ ∀ c ∈ s.data, c.isWhitespace := by
  rw [← trimChars_eq_nil_iff]
  constructor
  · intro h
    have := congrArg String.data h
    simpa [jsTrim] using this
  · intro h
    exact String.ext (by simpa [jsTrim] using h)

/-- Whitespace characters are not digits. -/
theorem ws_not_digit : ∀ c : Char, Char.isWhitespace c = true → Char.isDigit c = false := by
  intro c h
  simp [Char.isWhitespace] at h
  rcases h with ((h | h) | h) | h <;> subst h <;> decide

/-- Trimming a string does not change its digits. -/
theorem jsTrim_digits (s : String) :
    (jsTrim s).data.filter Char.isDigit = s.data.filter Char.isDigit :=
  filter_trimChars Char.isDigit ws_not_digit s.data

example : ("" : String) = ⟨[]⟩ := rfl
example : ("ab" : String).data = ['a', 'b'] := rfl

example : validateEmail "jo@acme.com" = true := by decide
example : validateEmail "not-an-email" = false := by decide
example : validateEmail "a@b@c.com" = false := by decide
example : validateEmail "jo@acme.c" = false := by decide
example : validatePhone "555-123-4567" = true := by decide
example : validatePhone "123" = false := by decide
example : validatePhone " " = true := by decide
example : validateName "Jo" = true := by decide
example : validateName "J" = false := by decide

/-! Helper lemmas about the handler's control flow. -/

/-- On validated input, when the CRM key is missing or the CRM call fails, the
handler's response and row list are those of the fallback path. -/
theorem action_fallback (env : Env) (db : List ContactRow) (input : FormInput)
    (hv : (validateForm input).isEmpty = true)
    (hfb : truthy env.hubspotApiKey = false ∨ env.crmOk = false) :
    (action env db input).1 =
      runCatch (fallbackToDatabase env db (input.firstName.getD "") (input.lastName.getD "")
        (input.email.getD "") (combinedPhone input.countryCode input.phoneNumber)
        (input.questions.getD "")).1 ∧
    (action env db input).2.1 =
      (fallbackToDatabase env db (input.firstName.getD "") (input.lastName.getD "")
        (input.email.getD "") (combinedPhone input.countryCode input.phoneNumber)
        (input.questions.getD "")).2.1 := by
  rcases hfb with hk | hc
  · constructor <;> simp [action, hv, hk]
  · by_cases hk2 : truthy env.hubspotApiKey = true
    · constructor <;> simp [action, hv, hk2, hc]
    · have hk3 : truthy env.hubspotApiKey = false := by
        cases h : truthy env.hubspotApiKey
        · rfl
        · exact absurd h hk2
      constructor <;> simp [action, hv, hk3]

/-- Every trace of the fallback helper contains no CRM call and starts with
the duplicate-check read on the normalized email. -/
theorem fallback_no_crm_and_starts_with_find (env : Env) (db : List ContactRow)
    (firstName lastName email : String) (phone : Option String) (questions : String) :
    (∀ ef ∈ (fallbackToDatabase env db firstName lastName email phone questions).2.2,
      ef.isCrm = false) ∧
    (fallbackToDatabase env db firstName lastName email phone questions).2.2.head? =
      some (Effect.dbFindFirst (normEmail email)) := by
  unfold fallbackToDatabase
  cases hf : env.findOk <;>
    cases hfind : findFirstByEmail db (normEmail email) <;>
      cases hi : env.insertOk <;>
        cases hm : env.emailOk <;>
          simp [hf, hfind, hi, hm, Effect.isCrm]

/-- C2: for every input in which at least one field fails validation, the
handler returns `success := false` with the per-field messages of the
validation chain in the errors mapping, leaves the row list unchanged, and
attempts no external call at all. -/
theorem C2_validation_failure_no_side_effects (env : Env) (db : List ContactRow)
    (input : FormInput) (h : (validateForm input).isEmpty = false) :
    action env db input =
      ({ success := false, message := "Please fix the validation errors",
         errors := some (validateForm input) }, db, []) := by
  simp [action, h]

/-- C2 witness: the invalid-email sample input is rejected with no effects. -/
theorem C2_witness :
    action envNoKey [] badEmailInput =
      ({ success := false, message := "Please fix the validation errors",
         errors := some (validateForm badEmailInput) }, [], []) :=
  C2_validation_failure_no_side_effects envNoKey [] badEmailInput (by decide)

/-- C4: for every validated input, when the CRM credential is configured and
the CRM call succeeds, the handler succeeds, the row list is unchanged, and
the trace contains no database read, no database write and no email send. -/
theorem C4_crm_success_no_local_persistence (env : Env) (db : List ContactRow)
    (input : FormInput)
    (hv : (validateForm input).isEmpty = true)
    (hkey : truthy env.hubspotApiKey = true)
    (hcrm : env.crmOk = true) :
    (action env db input).1 =
      { success := true, message := successMessage, errors := none } ∧
    (action env db input).2.1 = db ∧
    ∀ ef ∈ (action env db input).2.2,
      ef.isDbWrite = false ∧ ef.isEmail = false ∧ ef.isDbRead = false := by
  refine ⟨?_, ?_, ?_⟩ <;>
    simp [action, hv, hkey, hcrm, Effect.isDbWrite, Effect.isEmail, Effect.isDbRead]

/-- C4 witness. -/
theorem C4_witness :
    (action envKeyCrmOk [] sampleInput).1 =
      { success := true, message := successMessage, errors := none } ∧
    (action envKeyCrmOk [] sampleInput).2.1 = [] ∧
    ∀ ef ∈ (action envKeyCrmOk [] sampleInput).2.2,
      ef.isDbWrite = false ∧ ef.isEmail = false ∧ ef.isDbRead = false :=
  C4_crm_success_no_local_persistence envKeyCrmOk [] sampleInput (by decide) (by decide) rfl

/-- C6: for every validated input, when no CRM credential is configured the
handler attempts no CRM call and its first external call is the
duplicate-check read of the fallback path. -/
theorem C6_no_crm_key_takes_fallback (env : Env) (db : List ContactRow)
    (input : FormInput) (e : String)
    (hv : (validateForm input).isEmpty = true)
    (hkey : truthy env.hubspotApiKey = false)
    (he : input.email = some e) :
    (∀ ef ∈ (action env db input).2.2, ef.isCrm = false) ∧
    (action env db input).2.2.head? = some (Effect.dbFindFirst (normEmail e)) := by
  have ha : (action env db input).2.2 =
      (fallbackToDatabase env db (input.firstName.getD "") (input.lastName.getD "")
        e (combinedPhone input.countryCode input.phoneNumber)
        (input.questions.getD "")).2.2 := by
    simp [action, hv, hkey, he]
  rw [ha]
  exact fallback_no_crm_and_starts_with_find env db _ _ e _ _

/-- C6 witness. -/
theorem C6_witness :
    (∀ ef ∈ (action envNoKey [] sampleInput).2.2, ef.isCrm = false) ∧
    (action envNoKey [] sampleInput).2.2.head? =
      some (Effect.dbFindFirst (normEmail "jo@acme.com")) :=
  C6_no_crm_key_takes_fallback envNoKey [] sampleInput "jo@acme.com" (by decide) rfl rfl

/-- C3: for every validated input, when the CRM credential is configured, the
CRM call fails, the email is not a duplicate and the persistence and email
calls do not throw, exactly one row is created, exactly one email send is
attempted, and the handler succeeds. -/
theorem C3_crm_failure_persists_and_notifies (env : Env) (db : List ContactRow)
    (input : FormInput) (e : String)
    (hv : (validateForm input).isEmpty = true)
    (hkey : truthy env.hubspotApiKey = true)
    (hcrm : env.crmOk = false)
    (he : input.email = some e)
    (hnodup : findFirstByEmail db (normEmail e) = none)
    (hfind : env.findOk = true)
    (hins : env.insertOk = true)
    (hmail : env.emailOk = true) :
    ((action env db input).2.2.filter Effect.isDbWrite).length = 1 ∧
    ((action env db input).2.2.filter Effect.isEmail).length = 1 ∧
    (action env db input).1.success = true ∧
    (action env db input).2.1 =
      db ++ [newRow (input.firstName.getD "") (input.lastName.getD "") e
        (combinedPhone input.countryCode input.phoneNumber) (input.questions.getD "")] := by
  refine ⟨?_, ?_, ?_, ?_⟩ <;>
    simp [action, fallbackToDatabase, hv, hkey, hcrm, he, hnodup, hfind, hins, hmail,
      runCatch, Effect.isDbWrite, Effect.isEmail]

/-- C3 witness. -/
theorem C3_witness :
    ((action envKeyCrmFails [] sampleInput).2.2.filter Effect.isDbWrite).length = 1 ∧
    ((action envKeyCrmFails [] sampleInput).2.2.filter Effect.isEmail).length = 1 ∧
    (action envKeyCrmFails [] sampleInput).1.success = true ∧
    (action envKeyCrmFails [] sampleInput).2.1 =
      [] ++ [newRow (sampleInput.firstName.getD "") (sampleInput.lastName.getD "")
        "jo@acme.com" (combinedPhone sampleInput.countryCode sampleInput.phoneNumber)
        (sampleInput.questions.getD "")] :=
  C3_crm_failure_persists_and_notifies envKeyCrmFails [] sampleInput "jo@acme.com"
    (by decide) (by decide) rfl rfl (by decide) rfl rfl rfl

/-- C5: for every exception raised by the persistence layer (duplicate-check
query or insert) or by the email client during the fallback path, the handler
returns `success := false` with the single generic message and surfaces no
underlying cause (no errors mapping, no exception detail). -/
theorem C5_fallback_exception_generic_failure (env : Env) (db : List ContactRow)
    (input : FormInput) (e : String)
    (hv : (validateForm input).isEmpty = true)
    (hfb : truthy env.hubspotApiKey = false ∨ env.crmOk = false)
    (he : input.email = some e)
    (hexc : env.findOk = false
      ∨ (findFirstByEmail db (normEmail e) = none ∧ env.insertOk = false)
      ∨ (findFirstByEmail db (normEmail e) = none ∧ env.insertOk = true ∧
          env.emailOk = false)) :
    (action env db input).1 = genericFailureResult := by
  rw [(action_fallback env db input hv hfb).1, he]
  cases hf : env.findOk with
  | false => simp [fallbackToDatabase, hf, runCatch]
  | true =>
    rcases hexc with hx | ⟨hn, hx⟩ | ⟨hn, hi, hx⟩
    · rw [hf] at hx
      cases hx
    · simp [fallbackToDatabase, hf, hn, hx, runCatch]
    · simp [fallbackToDatabase, hf, hn, hi, hx, runCatch]

/-- C5 witness: the duplicate-check query throwing yields the generic failure. -/
theorem C5_witness :
    (action envNoKeyFindFails [] sampleInput).1 = genericFailureResult :=
  C5_fallback_exception_generic_failure envNoKeyFindFails [] sampleInput "jo@acme.com"
    (by decide) (Or.inl rfl) rfl (Or.inl rfl)

/-- C1: once a fallback submission with some email has been persisted, a later
submission whose email differs only by case or surrounding whitespace (equal
normalized email) is rejected as a duplicate by the fallback path: the
duplicate-rejection response is returned and the row list — including the
existing record — is left unchanged. -/
theorem C1_duplicate_rejected_after_persist (env1 env2 : Env) (db : List ContactRow)
    (input1 input2 : FormInput) (e1 e2 : String)
    (he1 : input1.email = some e1)
    (he2 : input2.email = some e2)
    (hsim : normEmail e1 = normEmail e2)
    (hv1 : (validateForm input1).isEmpty = true)
    (hv2 : (validateForm input2).isEmpty = true)
    (hfb1 : truthy env1.hubspotApiKey = false ∨ env1.crmOk = false)
    (hfind1 : env1.findOk = true)
    (hnodup : findFirstByEmail db (normEmail e1) = none)
    (hins1 : env1.insertOk = true)
    (hfb2 : truthy env2.hubspotApiKey = false ∨ env2.crmOk = false)
    (hfind2 : env2.findOk = true) :
    (action env2 (action env1 db input1).2.1 input2).1 = duplicateResult ∧
    (action env2 (action env1 db input1).2.1 input2).2.1 =
      (action env1 db input1).2.1 := by
  have hdb1 : (action env1 db input1).2.1 =
      db ++ [newRow (input1.firstName.getD "") (input1.lastName.getD "") e1
        (combinedPhone input1.countryCode input1.phoneNumber)
        (input1.questions.getD "")] := by
    rw [(action_fallback env1 db input1 hv1 hfb1).2, he1]
    cases hm : env1.emailOk <;>
      simp [fallbackToDatabase, hfind1, hnodup, hins1, hm]
  have hfound : findFirstByEmail (action env1 db input1).2.1 (normEmail e2) =
      some (newRow (input1.firstName.getD "") (input1.lastName.getD "") e1
        (combinedPhone input1.countryCode input1.phoneNumber)
        (input1.questions.getD "")) := by
    rw [hdb1]
    unfold findFirstByEmail at hnodup ⊢
    rw [hsim] at hnodup
    rw [List.find?_append, hnodup]
    simp [newRow, hsim]
  constructor
  · rw [(action_fallback env2 _ input2 hv2 hfb2).1, he2]
    simp [fallbackToDatabase, hfind2, hfound, runCatch]
  · rw [(action_fallback env2 _ input2 hv2 hfb2).2, he2]
    simp [fallbackToDatabase, hfind2, hfound]

/-- C1 witness: after `sampleInput` is persisted, `dupEmailInput` (same email
up to case and surrounding whitespace) is rejected and nothing changes. -/
theorem C1_witness :
    (action envNoKey (action envNoKey [] sampleInput).2.1 dupEmailInput).1 =
      duplicateResult ∧
    (action envNoKey (action envNoKey [] sampleInput).2.1 dupEmailInput).2.1 =
      (action envNoKey [] sampleInput).2.1 :=
  C1_duplicate_rejected_after_persist envNoKey envNoKey [] sampleInput dupEmailInput
    "jo@acme.com" "  JO@ACME.COM " rfl rfl (by decide) (by decide) (by decide)
    (Or.inl rfl) rfl (by decide) rfl (Or.inl rfl) rfl

/-- C10: the fallback path is not atomic. When the email send throws after the
insert, the caller gets the generic failure response while the new row remains
persisted, and a resubmission with the same email is then rejected as a
duplicate. -/
theorem C10_email_failure_persists_row (env1 env2 : Env) (db : List ContactRow)
    (input : FormInput) (e : String)
    (hv : (validateForm input).isEmpty = true)
    (he : input.email = some e)
    (hfb1 : truthy env1.hubspotApiKey = false ∨ env1.crmOk = false)
    (hfind1 : env1.findOk = true)
    (hnodup : findFirstByEmail db (normEmail e) = none)
    (hins1 : env1.insertOk = true)
    (hmail1 : env1.emailOk = false)
    (hfb2 : truthy env2.hubspotApiKey = false ∨ env2.crmOk = false)
    (hfind2 : env2.findOk = true) :
    (action env1 db input).1 = genericFailureResult ∧
    (action env1 db input).2.1 =
      db ++ [newRow (input.firstName.getD "") (input.lastName.getD "") e
        (combinedPhone input.countryCode input.phoneNumber)
        (input.questions.getD "")] ∧
    (action env2 (action env1 db input).2.1 input).1 = duplicateResult ∧
    (action env2 (action env1 db input).2.1 input).2.1 =
      (action env1 db input).2.1 := by
  have h1 : (action env1 db input).1 = genericFailureResult := by
    rw [(action_fallback env1 db input hv hfb1).1, he]
    simp [fallbackToDatabase, hfind1, hnodup, hins1, hmail1, runCatch]
  have hdb1 : (action env1 db input).2.1 =
      db ++ [newRow (input.firstName.getD "") (input.lastName.getD "") e
        (combinedPhone input.countryCode input.phoneNumber)
        (input.questions.getD "")] := by
    rw [(action_fallback env1 db input hv hfb1).2, he]
    simp [fallbackToDatabase, hfind1, hnodup, hins1, hmail1]
  have hfound : findFirstByEmail (action env1 db input).2.1 (normEmail e) =
      some (newRow (input.firstName.getD "") (input.lastName.getD "") e
        (combinedPhone input.countryCode input.phoneNumber)
        (input.questions.getD "")) := by
    rw [hdb1]
    unfold findFirstByEmail at hnodup ⊢
    rw [List.find?_append, hnodup]
    simp [newRow]
  refine ⟨h1, hdb1, ?_, ?_⟩
  · rw [(action_fallback env2 _ input hv hfb2).1, he]
    simp [fallbackToDatabase, hfind2, hfound, runCatch]
  · rw [(action_fallback env2 _ input hv hfb2).2, he]
    simp [fallbackToDatabase, hfind2, hfound]

/-- C10 witness. -/
theorem C10_witness :
    (action envNoKeyEmailFails [] sampleInput).1 = genericFailureResult ∧
    (action envNoKeyEmailFails [] sampleInput).2.1 =
      [] ++ [newRow (sampleInput.firstName.getD "") (sampleInput.lastName.getD "")
        "jo@acme.com" (combinedPhone sampleInput.countryCode sampleInput.phoneNumber)
        (sampleInput.questions.getD "")] ∧
    (action envNoKey (action envNoKeyEmailFails [] sampleInput).2.1 sampleInput).1 =
      duplicateResult ∧
    (action envNoKey (action envNoKeyEmailFails [] sampleInput).2.1 sampleInput).2.1 =
      (action envNoKeyEmailFails [] sampleInput).2.1 :=
  C10_email_failure_persists_row envNoKeyEmailFails envNoKey [] sampleInput "jo@acme.com"
    (by decide) rfl (Or.inl rfl) rfl (by decide) rfl rfl (Or.inl rfl) rfl

/-! Per-field equivalence of the implementation's validation chains with the
field rules of §4.1. -/

/-- A string's data list is empty exactly when the string is `""`. -/
theorem data_isEmpty_eq_true_iff (t : String) : t.data.isEmpty = true ↔ t = "" := by
  constructor
  · intro h
    apply String.ext
    cases hd : t.data with
    | nil => rfl
    | cons a l => rw [hd] at h; simp at h
  · intro h
    rw [h]
    rfl

/-- A non-`""` string has a non-empty data list. -/
theorem data_isEmpty_eq_false (t : String) (h : t ≠ "") : t.data.isEmpty = false := by
  cases hx : t.data.isEmpty
  · rfl
  · exact absurd ((data_isEmpty_eq_true_iff t).mp hx) h

/-- The first-name chain flags a value exactly when it violates the §4.1 name
rule. -/
theorem firstNameError_isSome_eq (v : Option String) :
    (firstNameError v).isSome = !spec41NameValid v := by
  cases v with
  | none => rfl
  | some s =>
    unfold firstNameError spec41NameValid
    by_cases h0 : jsTrim s = ""
    · have hlen : (jsTrim s).length = 0 := by rw [h0]; rfl
      simp [h0, hlen]
    · by_cases h2 : (jsTrim s).length < 2
      · have hn2 : ¬ 2 ≤ (jsTrim s).length := by omega
        simp [h0, h2, hn2]
      · by_cases h50 : 50 < (jsTrim s).length
        · have hn50 : ¬ (jsTrim s).length ≤ 50 := by omega
          have h2a : 2 ≤ (jsTrim s).length := by omega
          simp [h0, h2, h50, hn50, h2a]
        · have h2a : 2 ≤ (jsTrim s).length := by omega
          have h50a : (jsTrim s).length ≤ 50 := by omega
          have hne : (jsTrim s).data.isEmpty = false := data_isEmpty_eq_false _ h0
          have hvn : validateName (jsTrim s) = (jsTrim s).data.all isNameChar := by
            unfold validateName
            rw [jsTrim_idem, hne]
            simp [h2a]
          cases hall : (jsTrim s).data.all isNameChar <;>
            simp [h0, h2, h50, hvn, hall, h2a, h50a]

/-- The last-name chain flags a value exactly when it violates the §4.1 name
rule. -/
theorem lastNameError_isSome_eq (v : Option String) :
    (lastNameError v).isSome = !spec41NameValid v := by
  cases v with
  | none => rfl
  | some s =>
    unfold lastNameError spec41NameValid
    by_cases h0 : jsTrim s = ""
    · have hlen : (jsTrim s).length = 0 := by rw [h0]; rfl
      simp [h0, hlen]
    · by_cases h2 : (jsTrim s).length < 2
      · have hn2 : ¬ 2 ≤ (jsTrim s).length := by omega
        simp [h0, h2, hn2]
      · by_cases h50 : 50 < (jsTrim s).length
        · have hn50 : ¬ (jsTrim s).length ≤ 50 := by omega
          have h2a : 2 ≤ (jsTrim s).length := by omega
          simp [h0, h2, h50, hn50, h2a]
        · have h2a : 2 ≤ (jsTrim s).length := by omega
          have h50a : (jsTrim s).length ≤ 50 := by omega
          have hne : (jsTrim s).data.isEmpty = false := data_isEmpty_eq_false _ h0
          have hvn : validateName (jsTrim s) = (jsTrim s).data.all isNameChar := by
            unfold validateName
            rw [jsTrim_idem, hne]
            simp [h2a]
          cases hall : (jsTrim s).data.all isNameChar <;>
            simp [h0, h2, h50, hvn, hall, h2a, h50a]

/-- The email chain flags a value exactly when it violates the §4.1 email
rule. -/
theorem emailError_isSome_eq (v : Option String) :
    (emailError v).isSome = !spec41EmailValid v := by
  cases v with
  | none => rfl
  | some s =>
    unfold emailError spec41EmailValid
    by_cases h0 : jsTrim s = ""
    · have hemp : (jsTrim s).data.isEmpty = true := by rw [h0]; rfl
      simp [h0, hemp]
    · have hne : (jsTrim s).data.isEmpty = false := data_isEmpty_eq_false _ h0
      by_cases h254 : 254 < (jsTrim s).length
      · have hn : ¬ (jsTrim s).length ≤ 254 := by omega
        simp [h0, h254, hn, hne]
      · have hy : (jsTrim s).length ≤ 254 := by omega
        cases hv : validateEmail (jsTrim s) <;>
          simp [h0, h254, hv, hy, hne]

/-- The phone check flags a value exactly when it violates the (corrected)
§4.1 phone rule. -/
theorem phoneError_isSome_eq (v : Option String) :
    (phoneError v).isSome = !spec41PhoneValid v := by
  cases v with
  | none => rfl
  | some pn =>
    unfold phoneError spec41PhoneValid
    by_cases h0 : jsTrim pn = ""
    · have hemp : (jsTrim pn).data.isEmpty = true := by rw [h0]; rfl
      simp [hemp]
    · have hne : (jsTrim pn).data.isEmpty = false := data_isEmpty_eq_false _ h0
      have hvp : validatePhone (jsTrim pn) =
          (decide (7 ≤ (pn.data.filter Char.isDigit).length) &&
            decide ((pn.data.filter Char.isDigit).length ≤ 12)) := by
        unfold validatePhone
        rw [jsTrim_idem, if_neg h0, jsTrim_digits]
      cases hx : (decide (7 ≤ (pn.data.filter Char.isDigit).length) &&
          decide ((pn.data.filter Char.isDigit).length ≤ 12)) <;>
        simp [hne, hvp, hx]

/-- The questions chain flags a value exactly when it violates the §4.1
free-text rule. -/
theorem questionsError_isSome_eq (v : Option String) :
    (questionsError v).isSome = !spec41QuestionsValid v := by
  cases v with
  | none => rfl
  | some q =>
    unfold questionsError spec41QuestionsValid
    by_cases h0 : jsTrim q = ""
    · have hlen : (jsTrim q).length = 0 := by rw [h0]; rfl
      simp [h0, hlen]
    · by_cases h10 : (jsTrim q).length < 10
      · have hn : ¬ 10 ≤ (jsTrim q).length := by omega
        simp [h0, h10, hn]
      · by_cases h1000 : 1000 < (jsTrim q).length
        · have hn : ¬ (jsTrim q).length ≤ 1000 := by omega
          have hy : 10 ≤ (jsTrim q).length := by omega
          simp [h0, h10, h1000, hn, hy]
        · have hy : 10 ≤ (jsTrim q).length := by omega
          have hy2 : (jsTrim q).length ≤ 1000 := by omega
          simp [h0, h10, h1000, hy, hy2]

/-- C7: server-side validation aggregates all failures — for every input, the
errors mapping contains a message for a field exactly when that field violates
its own §4.1 rule, independently of every other field, so several invalid
fields all appear at once. -/
theorem C7_errors_aggregate_all_invalid_fields (input : FormInput) :
    (validateForm input).firstName.isSome = !spec41NameValid input.firstName ∧
    (validateForm input).lastName.isSome = !spec41NameValid input.lastName ∧
    (validateForm input).email.isSome = !spec41EmailValid input.email ∧
    (validateForm input).phoneNumber.isSome = !spec41PhoneValid input.phoneNumber ∧
    (validateForm input).questions.isSome = !spec41QuestionsValid input.questions :=
  ⟨firstNameError_isSome_eq _, lastNameError_isSome_eq _, emailError_isSome_eq _,
    phoneError_isSome_eq _, questionsError_isSome_eq _⟩

/-- C8 counterexample: the single-space phone value is a non-empty string, its
digit count after stripping non-digits is 0 (outside 7–12), and yet it passes
validation — refuting "a non-empty phone number passes validation if and only
if the digit count is at least 7 and at most 12". -/
theorem C8_counterexample_whitespace_phone :
    (" " : String) ≠ "" ∧
    phoneError (some " ") = none ∧
    ((" " : String).data.filter Char.isDigit).length = 0 := by
  decide

/-- C8 (amended): the phone field is optional — an absent or whitespace-only
(in particular empty) phone number always passes validation — and a phone
number that does not trim to the empty string passes validation exactly when
its digit count after stripping non-digits is between 7 and 12. -/
theorem C8_phone_validation_amended (pn : Option String) :
    phoneError none = none ∧
    (∀ s, pn = some s → jsTrim s = "" → phoneError pn = none) ∧
    (∀ s, pn = some s → jsTrim s ≠ "" →
      (phoneError pn = none ↔
        7 ≤ (s.data.filter Char.isDigit).length ∧
          (s.data.filter Char.isDigit).length ≤ 12)) := by
  refine ⟨rfl, ?_, ?_⟩
  · intro s hs h0
    subst hs
    unfold phoneError
    have hemp : (jsTrim s).data.isEmpty = true := (data_isEmpty_eq_true_iff _).mpr h0
    simp [hemp]
  · intro s hs h0
    subst hs
    unfold phoneError
    have hne : (jsTrim s).data.isEmpty = false := data_isEmpty_eq_false _ h0
    have hvp : validatePhone (jsTrim s) =
        decide (7 ≤ (s.data.filter Char.isDigit).length ∧
          (s.data.filter Char.isDigit).length ≤ 12) := by
      unfold validatePhone
      rw [jsTrim_idem, if_neg h0, jsTrim_digits]
      rw [Bool.decide_and]
    by_cases hd : 7 ≤ (s.data.filter Char.isDigit).length ∧
        (s.data.filter Char.isDigit).length ≤ 12
    · simp [hne, hvp, hd]
    · simp [hne, hvp, hd]

/-- C8 witness: a concrete phone number with 10 digits passes validation. -/
theorem C8_witness :
    phoneError (some "555-123-4567") = none :=
  ((C8_phone_validation_amended (some "555-123-4567")).2.2 "555-123-4567" rfl
    (by decide)).mpr (by decide)

/-- Trimming `cc ++ " " ++ pn.trim()` gives the empty string exactly when both
`cc` and `pn` consist of whitespace only. -/
theorem jsTrim_concat_empty_iff (cc pn : String) :
    jsTrim (cc ++ " " ++ jsTrim pn) = "" ↔
      (∀ c ∈ cc.data, c.isWhitespace) ∧ (∀ c ∈ pn.data, c.isWhitespace) := by
  rw [jsTrim_eq_empty_iff]
  have hdata : (cc ++ " " ++ jsTrim pn).data = cc.data ++ ' ' :: (jsTrim pn).data := by
    rw [String.data_append, String.data_append]
    simp
  rw [hdata]
  have htr : (∀ c ∈ (jsTrim pn).data, c.isWhitespace) ↔ (∀ c ∈ pn.data, c.isWhitespace) :=
    trimChars_all_ws_iff pn.data
  constructor
  · intro h
    refine ⟨fun c hc => h c ?_, htr.mp fun c hc => h c ?_⟩
    · simp [hc]
    · simp [hc]
  · rintro ⟨h1, h2⟩ c hc
    simp only [List.mem_append, List.mem_cons] at hc
    rcases hc with hc | hc | hc
    · exact h1 c hc
    · subst hc
      decide
    · exact (htr.mpr h2) c hc

/-- C9 counterexample: with countryCode and phoneNumber both the non-empty
string `" "`, a successful fallback run persists the row with `phone = none` —
refuting "the stored phone is non-null exactly when both countryCode and
phoneNumber are non-empty". -/
theorem C9_counterexample_whitespace_phone_discarded :
    truthy (some (" " : String)) = true ∧
    (action envNoKey [] wsPhoneInput).2.1 =
      [{ firstName := "Jo", lastName := "Lee", email := "jo@acme.com",
         phone := none, questions := "We need integration help with billing sync" }] := by
  decide

/-- C9 (amended): in a successful fallback insert, the persisted row's phone is
`storedPhone (combinedPhone countryCode phoneNumber)`; if the country code is
absent or empty the combined phone is null, the stored phone is null, and the
notification email is the phone-less one even though the phone number was
validated; and the stored phone is non-null exactly when both countryCode and
phoneNumber are non-empty and at least one of them contains a non-whitespace
character. -/
theorem C9_phone_combination_amended (env : Env) (db : List ContactRow)
    (input : FormInput) (e : String)
    (hv : (validateForm input).isEmpty = true)
    (hfb : truthy env.hubspotApiKey = false ∨ env.crmOk = false)
    (he : input.email = some e)
    (hnodup : findFirstByEmail db (normEmail e) = none)
    (hfind : env.findOk = true)
    (hins : env.insertOk = true) :
    ∃ row, (action env db input).2.1 = db ++ [row] ∧
      row.phone = storedPhone (combinedPhone input.countryCode input.phoneNumber) ∧
      (truthy input.countryCode = false →
        combinedPhone input.countryCode input.phoneNumber = none ∧
        row.phone = none ∧
        notificationEmail (input.firstName.getD "") (input.lastName.getD "") e
            (combinedPhone input.countryCode input.phoneNumber) (input.questions.getD "") =
          notificationEmail (input.firstName.getD "") (input.lastName.getD "") e none
            (input.questions.getD "")) ∧
      (row.phone ≠ none ↔
        truthy input.countryCode = true ∧ truthy input.phoneNumber = true ∧
          ¬((∀ c ∈ (input.countryCode.getD "").data, c.isWhitespace) ∧
            (∀ c ∈ (input.phoneNumber.getD "").data, c.isWhitespace))) := by
  have hdb1 : (action env db input).2.1 =
      db ++ [newRow (input.firstName.getD "") (input.lastName.getD "") e
        (combinedPhone input.countryCode input.phoneNumber)
        (input.questions.getD "")] := by
    rw [(action_fallback env db input hv hfb).2, he]
    cases hm : env.emailOk <;>
      simp [fallbackToDatabase, hfind, hnodup, hins, hm]
  refine ⟨newRow (input.firstName.getD "") (input.lastName.getD "") e
      (combinedPhone input.countryCode input.phoneNumber) (input.questions.getD ""),
    hdb1, rfl, ?_, ?_⟩
  · intro h
    have hcomb0 : combinedPhone input.countryCode input.phoneNumber = none := by
      unfold combinedPhone
      rw [h]
      rfl
    refine ⟨hcomb0, ?_, ?_⟩
    · show storedPhone (combinedPhone input.countryCode input.phoneNumber) = none
      rw [hcomb0]
      rfl
    · rw [hcomb0]
  · show storedPhone (combinedPhone input.countryCode input.phoneNumber) ≠ none ↔ _
    cases hcc : truthy input.countryCode
    · have hcomb0 : combinedPhone input.countryCode input.phoneNumber = none := by
        unfold combinedPhone
        rw [hcc]
        rfl
      rw [hcomb0]
      simp [storedPhone]
    · cases hpn : truthy input.phoneNumber
      · have hcomb0 : combinedPhone input.countryCode input.phoneNumber = none := by
          unfold combinedPhone
          rw [hcc, hpn]
          rfl
        rw [hcomb0]
        simp [storedPhone, hpn]
      · have hcomb : combinedPhone input.countryCode input.phoneNumber =
            some (input.countryCode.getD "" ++ " " ++ jsTrim (input.phoneNumber.getD "")) := by
          unfold combinedPhone
          rw [hcc, hpn]
          rfl
        rw [hcomb]
        have hq := jsTrim_concat_empty_iff (input.countryCode.getD "")
          (input.phoneNumber.getD "")
        constructor
        · intro hnz
          refine ⟨rfl, rfl, fun hAB => ?_⟩
          apply hnz
          simp only [storedPhone]
          rw [if_pos (hq.mpr hAB)]
        · rintro ⟨-, -, hn⟩ heq
          simp only [storedPhone] at heq
          by_cases hz : jsTrim (input.countryCode.getD "" ++ " " ++
              jsTrim (input.phoneNumber.getD "")) = ""
          · exact hn (hq.mp hz)
          · rw [if_neg hz] at heq
            cases heq

/-- C9 witness: on the sample input the fallback insert stores the combined
phone, and the characterization applies. -/
theorem C9_witness :
    ∃ row, (action envNoKey [] sampleInput).2.1 = [] ++ [row] ∧
      row.phone = storedPhone (combinedPhone sampleInput.countryCode sampleInput.phoneNumber) ∧
      (truthy sampleInput.countryCode = false →
        combinedPhone sampleInput.countryCode sampleInput.phoneNumber = none ∧
        row.phone = none ∧
        notificationEmail (sampleInput.firstName.getD "") (sampleInput.lastName.getD "")
            "jo@acme.com" (combinedPhone sampleInput.countryCode sampleInput.phoneNumber)
            (sampleInput.questions.getD "") =
          notificationEmail (sampleInput.firstName.getD "") (sampleInput.lastName.getD "")
            "jo@acme.com" none (sampleInput.questions.getD "")) ∧
      (row.phone ≠ none ↔
        truthy sampleInput.countryCode = true ∧ truthy sampleInput.phoneNumber = true ∧
          ¬((∀ c ∈ (sampleInput.countryCode.getD "").data, c.isWhitespace) ∧
            (∀ c ∈ (sampleInput.phoneNumber.getD "").data, c.isWhitespace))) :=
  C9_phone_combination_amended envNoKey [] sampleInput "jo@acme.com"
    (by decide) (Or.inl rfl) rfl (by decide) rfl rfl
